import Mathlib

/-!
Verification of the `FileDropZone` core logic of the dropit-react repository
(`src/components/file-drop-zone.tsx`): the file-selection reconciliation
performed by `handleFileChange`, the removal operation `removeFile`, and the
drag state machine driven by `handleDragOver` / `handleDragLeave` /
`handleDrop`.

Strings are modelled as lists of characters; the JavaScript string operations
used by the source (`String.prototype.includes`, `String.prototype.endsWith`,
and `String.prototype.replace` with a one-character string pattern, which
replaces only the first occurrence) are given as executable functions below.
-/

namespace DropIt

/-- A JavaScript string, modelled as its list of characters. -/
abbrev Str := List Char

/-- `strStartsWith s p`: the string `s` starts with `p`
(JavaScript `s.startsWith(p)`). -/
def strStartsWith : Str → Str → Bool
  | _, [] => true
  | [], _ :: _ => false
  | c :: s, p :: ps => c == p && strStartsWith s ps

/-- `strIncludes s sub`: `sub` occurs as a contiguous substring of `s`
(JavaScript `s.includes(sub)`). -/
def strIncludes : Str → Str → Bool
  | [], sub => sub.isEmpty
  | c :: s, sub => strStartsWith (c :: s) sub || strIncludes s sub

/-- `strEndsWith s suff`: `s` ends with `suff` (JavaScript `s.endsWith(suff)`). -/
def strEndsWith (s suff : Str) : Bool :=
  strStartsWith s.reverse suff.reverse

/-- JavaScript `p.replace("*", "")`: removes the first occurrence of the
character `*` from `p`, if any; all later occurrences are kept. -/
def replaceFirstStar : Str → Str
  | [] => []
  | c :: s => if c == '*' then s else c :: replaceFirstStar s

/-- A file as seen by the drop zone: the core reads only `name`, `type`
(the MIME type, possibly empty) and `size`. -/
structure FileDescriptor where
  name : Str
  mimeType : Str
  sizeBytes : Nat
deriving DecidableEq

/-- One pattern test of `handleFileChange`:
`file.type.includes(type.replace("*", "")) || file.name.endsWith(type.replace("*", ""))`. -/
def matchesPattern (file : FileDescriptor) (type : Str) : Bool :=
  strIncludes file.mimeType (replaceFirstStar type) ||
    strEndsWith file.name (replaceFirstStar type)

/-- The filtering step of `handleFileChange`:
`acceptedFileTypes.length ? newFiles.filter(...) : newFiles`. -/
def validFiles (acceptedFileTypes : List Str) (newFiles : List FileDescriptor) :
    List FileDescriptor :=
  if acceptedFileTypes.length ≠ 0 then
    newFiles.filter (fun file => acceptedFileTypes.any (fun t => matchesPattern file t))
  else
    newFiles

/-- The component's local state: the `files` and `isDragging` `useState` hooks.
`isDragging = true` is the Hovering drag state, `isDragging = false` is Idle. -/
structure ZoneState where
  files : List FileDescriptor
  isDragging : Bool
deriving DecidableEq

/-- The state at mount: `useState<File[]>([])` and `useState(false)`. -/
def initialState : ZoneState :=
  { files := [], isDragging := false }

/-- `handleFileChange(selectedFiles)`. Returns the new component state together
with the list of `onFilesSelected` callback invocations (each entry is the
argument of one invocation, in order). `selectedFiles = none` models a `null`
`FileList`, on which the handler returns at once. -/
def handleFileChange (acceptedFileTypes : List Str) (maxFiles : Nat)
    (st : ZoneState) (selectedFiles : Option (List FileDescriptor)) :
    ZoneState × List (List FileDescriptor) :=
  match selectedFiles with
  | none => (st, [])
  | some newFiles =>
    let valid := validFiles acceptedFileTypes newFiles
    let updatedFiles :=
      if maxFiles > 1 then (st.files ++ valid).take maxFiles
      else valid.take maxFiles
    ({ st with files := updatedFiles }, [updatedFiles])

/-- `removeFile(index)`: copies `files`, performs `splice(index, 1)` (which
removes the element at `index` when it exists and removes nothing otherwise),
stores the result and invokes `onFilesSelected` with it. -/
def removeFile (st : ZoneState) (index : Nat) :
    ZoneState × List (List FileDescriptor) :=
  let newFiles := st.files.take index ++ st.files.drop (index + 1)
  ({ st with files := newFiles }, [newFiles])

/-- The drag events the drop target listens for. `dragOver` stands for the
external drag-over event stream (`onDragOver`); `drop` carries the payload
batch `e.dataTransfer.files`. -/
inductive DragEvent where
  | dragOver
  | dragLeave
  | drop (payload : List FileDescriptor)

/-- One step of the widget on a drag event: `handleDragOver` sets
`isDragging` to `true`; `handleDragLeave` sets it to `false`; `handleDrop`
sets it to `false` and then calls `handleFileChange(e.dataTransfer.files)`. -/
def step (acceptedFileTypes : List Str) (maxFiles : Nat) (st : ZoneState) :
    DragEvent → ZoneState × List (List FileDescriptor)
  | .dragOver => ({ st with isDragging := true }, [])
  | .dragLeave => ({ st with isDragging := false }, [])
  | .drop payload =>
    handleFileChange acceptedFileTypes maxFiles
      { st with isDragging := false } (some payload)

/-- Per-descriptor acceptance, as the code decides it: everything is accepted
when the filter is empty, and otherwise a descriptor is accepted iff some
pattern matches it. -/
def acceptsFile (acceptedFileTypes : List Str) (file : FileDescriptor) : Bool :=
  acceptedFileTypes.isEmpty ||
    acceptedFileTypes.any (fun t => matchesPattern file t)

/-- The spec's literal pattern normalization: strip a trailing `*`
("any trailing `*` stripped"), leaving every other character in place. -/
def stripTrailingStar (p : Str) : Str :=
  if p.getLast? = some '*' then p.dropLast else p

/-- The spec's literal acceptance predicate (§4.1 rule 1): the filter is empty,
or some pattern, with any trailing `*` stripped, is a substring of the
descriptor's MIME type or a suffix of its name. -/
def specAccepts (filter : List Str) (file : FileDescriptor) : Bool :=
  filter.isEmpty ||
    filter.any (fun p =>
      strIncludes file.mimeType (stripTrailingStar p) ||
        strEndsWith file.name (stripTrailingStar p))

/-- The filtering step keeps exactly the descriptors satisfying `acceptsFile`. -/
theorem validFiles_eq_filter (filter : List Str) (offered : List FileDescriptor) :
    validFiles filter offered =
      offered.filter (fun file => acceptsFile filter file) := by
  cases filter with
  | nil => simp [validFiles, acceptsFile]
  | cons p ps => simp [validFiles, acceptsFile]

/-- Sample descriptors used in concrete witnesses. -/
def fileA : FileDescriptor := { name := ['a'], mimeType := [], sizeBytes := 0 }

def fileB : FileDescriptor := { name := ['b'], mimeType := [], sizeBytes := 0 }

def fileC : FileDescriptor := { name := ['c'], mimeType := [], sizeBytes := 0 }

def fileD : FileDescriptor := { name := ['d'], mimeType := [], sizeBytes := 0 }

/-- C1: for every current selection, offered batch, accept filter and
`maxFiles ≥ 1`, the selection produced by `handleFileChange` has length at
most `maxFiles`. -/
theorem C1_selection_bounded (filter : List Str) (maxFiles : Nat)
    (st : ZoneState) (offered : List FileDescriptor) (h : 1 ≤ maxFiles) :
    (handleFileChange filter maxFiles st (some offered)).1.files.length ≤ maxFiles := by
  unfold handleFileChange
  dsimp only
  split
  · exact List.length_take_le _ _
  · exact List.length_take_le _ _

theorem C1_selection_bounded_witness :
    1 ≤ 2 ∧
      (handleFileChange [] 2 { files := [fileA], isDragging := false }
          (some [fileB, fileC])).1.files.length ≤ 2 :=
  ⟨by decide, C1_selection_bounded [] 2 _ _ (by decide)⟩

/-- C2: for `maxFiles > 1`, reconciliation returns exactly the first
`maxFiles` elements of the current selection concatenated with the
filter-accepted subsequence of the offered batch. -/
theorem C2_append_truncate (filter : List Str) (maxFiles : Nat)
    (st : ZoneState) (offered : List FileDescriptor) (h : 1 < maxFiles) :
    (handleFileChange filter maxFiles st (some offered)).1.files =
      (st.files ++ offered.filter (fun file => acceptsFile filter file)).take maxFiles := by
  unfold handleFileChange
  dsimp only
  rw [if_pos h, validFiles_eq_filter]

theorem C2_append_truncate_witness :
    1 < 2 ∧
      (handleFileChange [] 2 { files := [fileA, fileB], isDragging := false }
          (some [fileC, fileD])).1.files =
        (([fileA, fileB] ++ [fileC, fileD].filter (fun file => acceptsFile [] file)).take 2) :=
  ⟨by decide, C2_append_truncate [] 2 _ _ (by decide)⟩

/-- The pattern string `*.png`, used in the C3 counterexample. -/
def starDotPng : Str := ['*', '.', 'p', 'n', 'g']

/-- A descriptor named `foo.png` with an empty MIME type. -/
def fooPng : FileDescriptor :=
  { name := ['f', 'o', 'o', '.', 'p', 'n', 'g'], mimeType := [], sizeBytes := 0 }

/-- C3 counterexample: with filter `["*.png"]` and a descriptor named
`foo.png`, the code accepts the descriptor (because `replace("*", "")` removes
the leading `*`, leaving the suffix `.png`), while the claimed predicate —
only a trailing `*` stripped — rejects it, so the claimed iff fails. -/
theorem C3_counterexample :
    validFiles [starDotPng] [fooPng] = [fooPng] ∧
      specAccepts [starDotPng] fooPng = false := by decide

/-- C3 amended: a descriptor is accepted iff the filter is empty, or some
pattern in the filter, with its first occurrence of `*` (anywhere in the
pattern, not only trailing) removed, is a substring of the descriptor's MIME
type or a suffix of its name; matching is case-sensitive with no other
normalization. -/
theorem C3_accept_characterization (filter : List Str) (offered : List FileDescriptor) :
    validFiles filter offered =
      offered.filter (fun file =>
        filter.isEmpty ||
          filter.any (fun p =>
            strIncludes file.mimeType (replaceFirstStar p) ||
              strEndsWith file.name (replaceFirstStar p))) := by
  rw [validFiles_eq_filter]
  rfl

/-- C4: when `maxFiles = 1`, the new selection depends only on the offered
batch and the filter, never on the prior selection (replace semantics). -/
theorem C4_replace_semantics (filter : List Str) (s1 s2 : ZoneState)
    (offered : List FileDescriptor) :
    (handleFileChange filter 1 s1 (some offered)).1.files =
      (handleFileChange filter 1 s2 (some offered)).1.files := rfl

/-- C5 counterexample: `removeFile` on the one-element selection `[a]` with
index `5` does not fail: it returns the selection unchanged and still invokes
the callback with it, contradicting the claimed OutOfRange failure. -/
theorem C5_counterexample :
    (removeFile { files := [fileA], isDragging := false } 5).1.files = [fileA] ∧
      (removeFile { files := [fileA], isDragging := false } 5).2 = [[fileA]] := by
  decide

/-- C5 amended: `removeFile` with an index at or beyond the selection length
(`index ≥ |current|`, the side of the out-of-range interval the claim's own
example `removeAt([{a}], 5)` exercises) does not fail; it returns the
selection unchanged. Negative indices are outside this amendment's scope:
`splice` counts them from the end of the array. -/
theorem C5_out_of_range_total (st : ZoneState) (index : Nat)
    (h : st.files.length ≤ index) :
    (removeFile st index).1.files = st.files := by
  unfold removeFile
  dsimp only
  rw [List.take_of_length_le h, List.drop_eq_nil_of_le (by omega), List.append_nil]

theorem C5_out_of_range_total_witness :
    ({ files := [fileA], isDragging := false } : ZoneState).files.length ≤ 5 ∧
      (removeFile { files := [fileA], isDragging := false } 5).1.files =
        ({ files := [fileA], isDragging := false } : ZoneState).files :=
  ⟨by decide, C5_out_of_range_total _ 5 (by decide)⟩

/-- C6: for every selection and every index inside `[0, |selection|)`,
`removeFile` shrinks the selection by exactly one and yields the selection
with the element at that index removed, the rest in their original order. -/
theorem C6_remove_in_range (st : ZoneState) (index : Nat)
    (h : index < st.files.length) :
    (removeFile st index).1.files.length + 1 = st.files.length ∧
      (removeFile st index).1.files = st.files.eraseIdx index := by
  constructor
  · unfold removeFile
    dsimp only
    rw [List.length_append, List.length_take, List.length_drop]
    omega
  · unfold removeFile
    dsimp only
    rw [List.eraseIdx_eq_take_drop_succ]

theorem C6_remove_in_range_witness :
    1 < ({ files := [fileA, fileB, fileC], isDragging := false } : ZoneState).files.length ∧
      ((removeFile { files := [fileA, fileB, fileC], isDragging := false } 1).1.files.length + 1 =
          ({ files := [fileA, fileB, fileC], isDragging := false } : ZoneState).files.length ∧
        (removeFile { files := [fileA, fileB, fileC], isDragging := false } 1).1.files =
          ({ files := [fileA, fileB, fileC], isDragging := false } : ZoneState).files.eraseIdx 1) :=
  ⟨by decide, C6_remove_in_range _ 1 (by decide)⟩

/-- C7: after every successful reconciliation and after every removal, the
`onFilesSelected` callback is invoked exactly once, with exactly the full new
selection, and that argument equals the stored selection. -/
theorem C7_callback_full_selection (filter : List Str) (maxFiles : Nat)
    (st : ZoneState) (offered : List FileDescriptor) (index : Nat) :
    (handleFileChange filter maxFiles st (some offered)).2 =
        [(handleFileChange filter maxFiles st (some offered)).1.files] ∧
      (removeFile st index).2 = [(removeFile st index).1.files] :=
  ⟨rfl, rfl⟩

/-- C8: the drag state starts Idle (`isDragging = false`); a drag-over event
takes any state to Hovering, a drag-leave event takes any state (in
particular Hovering) to Idle, and a drop event takes any state to Idle and
passes the drop payload's file batch to `handleFileChange`; neither
drag-over nor drag-leave touches the selection or invokes the callback. -/
theorem C8_drag_state_machine (filter : List Str) (maxFiles : Nat)
    (st : ZoneState) (payload : List FileDescriptor) :
    initialState.isDragging = false ∧
      (step filter maxFiles st .dragOver).1.isDragging = true ∧
      (step filter maxFiles st .dragOver).1.files = st.files ∧
      (step filter maxFiles st .dragOver).2 = [] ∧
      (step filter maxFiles st .dragLeave).1.isDragging = false ∧
      (step filter maxFiles st .dragLeave).1.files = st.files ∧
      (step filter maxFiles st .dragLeave).2 = [] ∧
      (step filter maxFiles st (.drop payload)).1.isDragging = false ∧
      (step filter maxFiles st (.drop payload)).1.files =
        (handleFileChange filter maxFiles st (some payload)).1.files ∧
      (step filter maxFiles st (.drop payload)).2 =
        (handleFileChange filter maxFiles st (some payload)).2 :=
  ⟨rfl, rfl, rfl, rfl, rfl, rfl, rfl, rfl, rfl, rfl⟩

/-- C9: when the offered batch is `null`, `handleFileChange` returns at once:
the state (selection and drag flag alike) is unchanged and the callback is
not invoked. -/
theorem C9_null_batch_frame (filter : List Str) (maxFiles : Nat) (st : ZoneState) :
    (handleFileChange filter maxFiles st none).1 = st ∧
      (handleFileChange filter maxFiles st none).2 = [] :=
  ⟨rfl, rfl⟩

/-- C10: for every selection and every index at or beyond its length,
`removeFile` raises no error, leaves the selection unchanged, and still
invokes the callback once with the unchanged selection. -/
theorem C10_remove_out_of_range_noop (st : ZoneState) (index : Nat)
    (h : st.files.length ≤ index) :
    (removeFile st index).1.files = st.files ∧
      (removeFile st index).2 = [st.files] := by
  unfold removeFile
  dsimp only
  rw [List.take_of_length_le h, List.drop_eq_nil_of_le (by omega), List.append_nil]
  exact ⟨rfl, rfl⟩

theorem C10_remove_out_of_range_noop_witness :
    ({ files := [fileB], isDragging := false } : ZoneState).files.length ≤ 3 ∧
      ((removeFile { files := [fileB], isDragging := false } 3).1.files =
          ({ files := [fileB], isDragging := false } : ZoneState).files ∧
        (removeFile { files := [fileB], isDragging := false } 3).2 =
          [({ files := [fileB], isDragging := false } : ZoneState).files]) :=
  ⟨by decide, C10_remove_out_of_range_noop _ 3 (by decide)⟩

end DropIt
